import Mathlib

/-!
Shallow embedding of `src/ebrahim_hossain/RestAPI.py`, a linear unittest
suite (`BookingTests`) exercising a booking REST API.  Each test method is
embedded as a pure function from the class-level run state and the
response(s) of its HTTP call(s) to an outcome: a step result
(pass / fail / skip), the updated run state, and the list of HTTP
requests the step issued.  Transport-level exceptions are modelled as the
`Except.error` case carrying the exception's description string; JSON
response bodies are modelled per the wire contract as records with the
optional fields the code reads (`.get`/`[...]` on the parsed body).
-/

namespace RestAPI

/-- Constant `BASE_URL` from the configuration block of `RestAPI.py`. -/
def BASE_URL : String := "https://restful-booker.herokuapp.com"

/-- Constant `USERNAME` from the configuration block. -/
def USERNAME : String := "admin"

/-- Constant `PASSWORD` from the configuration block. -/
def PASSWORD : String := "password123"

/-- The nested `bookingdates` dict of the booking payload. -/
structure BookingDates where
  checkin : String
  checkout : String
deriving Repr, DecidableEq

/-- The booking payload dict (`cls.booking_data`). -/
structure Booking where
  firstname : String
  lastname : String
  totalprice : Int
  depositpaid : Bool
  bookingdates : BookingDates
  additionalneeds : String
deriving Repr, DecidableEq

/-- The literal `cls.booking_data` value built in `setUpClass`. -/
def initialBookingData : Booking :=
  { firstname := "Ebrahim"
    lastname := "Hossain"
    totalprice := 100
    depositpaid := true
    bookingdates := { checkin := "2023-01-01", checkout := "2023-01-05" }
    additionalneeds := "Breakfast" }

/-- The class-level mutable state shared by the ordered test methods:
`cls.token`, `cls.booking_id`, `cls.booking_data`. -/
structure RunState where
  token : Option String
  booking_id : Option Int
  booking_data : Booking
deriving Repr, DecidableEq

/-- Method `setUpClass`: token and booking id start as `None`, the fixture is the
literal payload. -/
def setUpClass : RunState :=
  { token := none, booking_id := none, booking_data := initialBookingData }

/-- Outcome of one test method as reported by the unittest runner. -/
inductive StepResult where
  | passed
  | failed (reason : String)
  | skipped (reason : String)
deriving Repr, DecidableEq

/-- HTTP method of an issued request. -/
inductive Method where
  | get
  | post
  | put
  | delete
deriving Repr, DecidableEq

/-- One HTTP request as issued by a step: method, URL, the `timeout=`
keyword argument when present, and the JSON booking body when the request
sends one. -/
structure HttpRequest where
  method : Method
  url : String
  timeout : Option Nat
  body : Option Booking
deriving Repr, DecidableEq

/-- Response to `GET /` and to `DELETE /booking/id` and the follow-up
verification `GET`: the code only reads `.status_code`. -/
structure StatusResponse where
  status : Nat
deriving Repr, DecidableEq

/-- Response to `POST /auth`: status and the body's optional `token`
field (`response.json().get("token")`, `none` when absent or null). -/
structure AuthResponse where
  status : Nat
  token : Option String
deriving Repr, DecidableEq

/-- Response to `POST /booking`: status and the body's optional
`bookingid` field. -/
structure CreateResponse where
  status : Nat
  bookingid : Option Int
deriving Repr, DecidableEq

/-- Response to `GET /booking/id`: status and the body's optional
`firstname` field (`booking["firstname"]`, a `KeyError` when absent). -/
structure GetResponse where
  status : Nat
  firstname : Option String
deriving Repr, DecidableEq

/-- Response to `PUT /booking/id`: status and the returned body's
optional `firstname` field. -/
structure PutResponse where
  status : Nat
  firstname : Option String
deriving Repr, DecidableEq

/-- What one test method produced: the runner-visible result, the class
state after the method, and the HTTP requests it issued (in order). -/
structure StepOutcome where
  result : StepResult
  state : RunState
  requests : List HttpRequest
deriving Repr, DecidableEq

/-- Python truthiness of `self.token : Option String`: `None` and the
empty string are falsy (`if not self.token`). -/
def pyTruthyToken : Option String → Bool
  | none => false
  | some s => !(s == "")

/-- Python truthiness of `self.booking_id : Option Int`: `None` and the
integer `0` are falsy (`if not self.booking_id`). -/
def pyTruthyId : Option Int → Bool
  | none => false
  | some i => !(i == 0)

/-- Rendering of `self.booking_id` inside an f-string URL: Python prints
the integer itself (or `None` when unset). -/
def idString : Option Int → String
  | none => "None"
  | some i => toString i

/-- Method `test_00_verify_api_available`: `GET BASE_URL` with `timeout=5`;
asserts status 200; any exception is converted by the handler into
`self.fail("API connection failed: " + str(e))`. -/
def test_00_verify_api_available (s : RunState)
    (resp : Except String StatusResponse) : StepOutcome :=
  let req : HttpRequest := ⟨.get, BASE_URL, some 5, none⟩
  match resp with
  | .error e => ⟨.failed ("API connection failed: " ++ e), s, [req]⟩
  | .ok r =>
    if r.status = 200 then ⟨.passed, s, [req]⟩
    else
      ⟨.failed ("API connection failed: API not reachable. Status: "
          ++ toString r.status), s, [req]⟩

/-- Method `test_01_authenticate`: `POST BASE_URL/auth` with `timeout=5`;
asserts status 200, reads `token = response.json().get("token")`,
asserts it is not `None`, then stores it into `cls.token`.  All
assertion and transport errors are refailed with the prefix
`"Authentication failed: "`. -/
def test_01_authenticate (s : RunState)
    (resp : Except String AuthResponse) : StepOutcome :=
  let req : HttpRequest := ⟨.post, BASE_URL ++ "/auth", some 5, none⟩
  match resp with
  | .error e => ⟨.failed ("Authentication failed: " ++ e), s, [req]⟩
  | .ok r =>
    if r.status = 200 then
      match r.token with
      | some t => ⟨.passed, { s with token := some t }, [req]⟩
      | none =>
        ⟨.failed "Authentication failed: No token in response", s, [req]⟩
    else
      ⟨.failed ("Authentication failed: Auth failed. Status: "
          ++ toString r.status), s, [req]⟩

/-- Method `test_02_create_booking`: skips (before the try block) when
`not self.token`; otherwise `POST BASE_URL/booking` with the fixture as
body and `timeout=5`; asserts status 200, reads
`response.json().get("bookingid")`, asserts it is not `None`, stores it
into `cls.booking_id`.  Errors are refailed with the prefix
`"Booking creation failed: "`. -/
def test_02_create_booking (s : RunState)
    (resp : Except String CreateResponse) : StepOutcome :=
  if !(pyTruthyToken s.token) then
    ⟨.skipped "No authentication token available", s, []⟩
  else
    let req : HttpRequest :=
      ⟨.post, BASE_URL ++ "/booking", some 5, some s.booking_data⟩
    match resp with
    | .error e => ⟨.failed ("Booking creation failed: " ++ e), s, [req]⟩
    | .ok r =>
      if r.status = 200 then
        match r.bookingid with
        | some i => ⟨.passed, { s with booking_id := some i }, [req]⟩
        | none =>
          ⟨.failed "Booking creation failed: No bookingid in response",
            s, [req]⟩
      else
        ⟨.failed ("Booking creation failed: Create booking failed. Status: "
            ++ toString r.status), s, [req]⟩

/-- Method `test_03_get_booking`: skips when `not self.booking_id`; otherwise
`GET BASE_URL/booking/id` with `timeout=5`; asserts status 200 and that
the body's `firstname` equals `self.booking_data["firstname"]` (a
missing key raises `KeyError`, caught by the handler).  Errors are
refailed with the prefix `"Failed to get booking: "`.  Does not write
the class state. -/
def test_03_get_booking (s : RunState)
    (resp : Except String GetResponse) : StepOutcome :=
  if !(pyTruthyId s.booking_id) then
    ⟨.skipped "No booking ID available (creation likely failed)", s, []⟩
  else
    let req : HttpRequest :=
      ⟨.get, BASE_URL ++ "/booking/" ++ idString s.booking_id, some 5, none⟩
    match resp with
    | .error e => ⟨.failed ("Failed to get booking: " ++ e), s, [req]⟩
    | .ok r =>
      if r.status = 200 then
        match r.firstname with
        | some fn =>
          if fn = s.booking_data.firstname then ⟨.passed, s, [req]⟩
          else
            ⟨.failed "Failed to get booking: Firstname does not match",
              s, [req]⟩
        | none =>
          ⟨.failed "Failed to get booking: KeyError firstname", s, [req]⟩
      else
        ⟨.failed ("Failed to get booking: Get booking failed. Status: "
            ++ toString r.status), s, [req]⟩

/-- The derived payload of `test_04_update_booking`:
`updated_data = self.booking_data.copy()` followed by
`updated_data.update(firstname = "UpdatedName", lastname = "UpdatedLastName")`. -/
def updated_data (b : Booking) : Booking :=
  { b with firstname := "UpdatedName", lastname := "UpdatedLastName" }

/-- Method `test_04_update_booking`: skips when
`not self.booking_id or not self.token`; otherwise
`PUT BASE_URL/booking/id` with the derived payload and `timeout=5`;
asserts status 200 and that the returned body's `firstname` equals
`"UpdatedName"`.  Errors are refailed with the prefix
`"Failed to update booking: "`.  Does not write the class state. -/
def test_04_update_booking (s : RunState)
    (resp : Except String PutResponse) : StepOutcome :=
  if !(pyTruthyId s.booking_id) || !(pyTruthyToken s.token) then
    ⟨.skipped "Missing booking ID or token", s, []⟩
  else
    let req : HttpRequest :=
      ⟨.put, BASE_URL ++ "/booking/" ++ idString s.booking_id, some 5,
        some (updated_data s.booking_data)⟩
    match resp with
    | .error e => ⟨.failed ("Failed to update booking: " ++ e), s, [req]⟩
    | .ok r =>
      if r.status = 200 then
        match r.firstname with
        | some fn =>
          if fn = "UpdatedName" then ⟨.passed, s, [req]⟩
          else
            ⟨.failed "Failed to update booking: Firstname not updated",
              s, [req]⟩
        | none =>
          ⟨.failed "Failed to update booking: KeyError firstname", s, [req]⟩
      else
        ⟨.failed ("Failed to update booking: Update failed. Status: "
            ++ toString r.status), s, [req]⟩

/-- Method `test_05_delete_booking`: skips when
`not self.booking_id or not self.token`; otherwise
`DELETE BASE_URL/booking/id` with `timeout=5`; asserts status 201; then
issues the verification `requests.get(delete_url)` — with no `timeout`
argument — and asserts its status is 404.  Errors are refailed with the
prefix `"Failed to delete booking: "`.  Does not write the class state. -/
def test_05_delete_booking (s : RunState)
    (dresp : Except String StatusResponse)
    (gresp : Except String StatusResponse) : StepOutcome :=
  if !(pyTruthyId s.booking_id) || !(pyTruthyToken s.token) then
    ⟨.skipped "Missing booking ID or token", s, []⟩
  else
    let url := BASE_URL ++ "/booking/" ++ idString s.booking_id
    let delReq : HttpRequest := ⟨.delete, url, some 5, none⟩
    let getReq : HttpRequest := ⟨.get, url, none, none⟩
    match dresp with
    | .error e => ⟨.failed ("Failed to delete booking: " ++ e), s, [delReq]⟩
    | .ok r =>
      if r.status = 201 then
        match gresp with
        | .error e =>
          ⟨.failed ("Failed to delete booking: " ++ e), s, [delReq, getReq]⟩
        | .ok g =>
          if g.status = 404 then ⟨.passed, s, [delReq, getReq]⟩
          else
            ⟨.failed "Failed to delete booking: Booking still exists after deletion",
              s, [delReq, getReq]⟩
      else
        ⟨.failed ("Failed to delete booking: Delete failed. Status: "
            ++ toString r.status), s, [delReq]⟩

/-- The responses the remote API (and transport) gives to the seven HTTP
calls a full suite run can issue, in step order. -/
structure Env where
  availResp : Except String StatusResponse
  authResp : Except String AuthResponse
  createResp : Except String CreateResponse
  getResp : Except String GetResponse
  putResp : Except String PutResponse
  deleteResp : Except String StatusResponse
  deleteGetResp : Except String StatusResponse
deriving Repr

/-- The six per-step results of one full suite run and the final class
state. -/
structure SuiteRun where
  r0 : StepResult
  r1 : StepResult
  r2 : StepResult
  r3 : StepResult
  r4 : StepResult
  r5 : StepResult
  finalState : RunState
deriving Repr, DecidableEq

/-- One full run of `BookingTests`: the unittest runner executes the six
methods in name order, always attempting every one, threading the class
state. -/
def runSuite (env : Env) : SuiteRun :=
  let o0 := test_00_verify_api_available setUpClass env.availResp
  let o1 := test_01_authenticate o0.state env.authResp
  let o2 := test_02_create_booking o1.state env.createResp
  let o3 := test_03_get_booking o2.state env.getResp
  let o4 := test_04_update_booking o3.state env.putResp
  let o5 := test_05_delete_booking o4.state env.deleteResp env.deleteGetResp
  ⟨o0.result, o1.result, o2.result, o3.result, o4.result, o5.result, o5.state⟩

/-! Shared helper facts about the individual steps. -/

/-- The availability check never writes the class state. -/
lemma test_00_state (s : RunState) (resp : Except String StatusResponse) :
    (test_00_verify_api_available s resp).state = s := by
  rcases resp with e | r
  · rfl
  · by_cases h : r.status = 200 <;> simp [test_00_verify_api_available, h]

/-- Retrieval never writes the class state. -/
lemma test_03_state (s : RunState) (resp : Except String GetResponse) :
    (test_03_get_booking s resp).state = s := by
  by_cases h0 : pyTruthyId s.booking_id
  · rcases resp with e | r
    · simp [test_03_get_booking, h0]
    · by_cases h : r.status = 200
      · rcases h2 : r.firstname with _ | fn
        · simp [test_03_get_booking, h0, h, h2]
        · by_cases h3 : fn = s.booking_data.firstname <;>
            simp [test_03_get_booking, h0, h, h2, h3]
      · simp [test_03_get_booking, h0, h]
  · simp [test_03_get_booking, h0]

/-- Update never writes the class state. -/
lemma test_04_state (s : RunState) (resp : Except String PutResponse) :
    (test_04_update_booking s resp).state = s := by
  by_cases h0 : !(pyTruthyId s.booking_id) || !(pyTruthyToken s.token)
  · simp [test_04_update_booking, h0]
  · rcases resp with e | r
    · simp [test_04_update_booking, h0]
    · by_cases h : r.status = 200
      · rcases h2 : r.firstname with _ | fn
        · simp [test_04_update_booking, h0, h, h2]
        · by_cases h3 : fn = "UpdatedName" <;>
            simp [test_04_update_booking, h0, h, h2, h3]
      · simp [test_04_update_booking, h0, h]

/-- Deletion never writes the class state. -/
lemma test_05_state (s : RunState)
    (dresp gresp : Except String StatusResponse) :
    (test_05_delete_booking s dresp gresp).state = s := by
  by_cases h0 : !(pyTruthyId s.booking_id) || !(pyTruthyToken s.token)
  · simp [test_05_delete_booking, h0]
  · rcases dresp with e | r
    · simp [test_05_delete_booking, h0]
    · by_cases h : r.status = 201
      · rcases gresp with e2 | g
        · simp [test_05_delete_booking, h0, h]
        · by_cases h2 : g.status = 404 <;>
            simp [test_05_delete_booking, h0, h, h2]
      · simp [test_05_delete_booking, h0, h]

/-- Authentication only ever writes the token, never the fixture or the
booking id. -/
lemma test_01_booking_data (s : RunState) (resp : Except String AuthResponse) :
    (test_01_authenticate s resp).state.booking_data = s.booking_data := by
  rcases resp with e | r
  · rfl
  · by_cases h : r.status = 200
    · rcases h2 : r.token with _ | t <;> simp [test_01_authenticate, h, h2]
    · simp [test_01_authenticate, h]

/-- Creation only ever writes the booking id, never the fixture. -/
lemma test_02_booking_data (s : RunState)
    (resp : Except String CreateResponse) :
    (test_02_create_booking s resp).state.booking_data = s.booking_data := by
  by_cases h0 : !(pyTruthyToken s.token)
  · simp [test_02_create_booking, h0]
  · rcases resp with e | r
    · simp [test_02_create_booking, h0]
    · by_cases h : r.status = 200
      · rcases h2 : r.bookingid with _ | i <;>
          simp [test_02_create_booking, h0, h, h2]
      · simp [test_02_create_booking, h0, h]

/-- When authentication does not pass, the class state is untouched (the
assignment to `cls.token` is only reached on the all-assertions-passed
path). -/
lemma authenticate_state_of_not_passed (s : RunState)
    (resp : Except String AuthResponse)
    (h : (test_01_authenticate s resp).result ≠ .passed) :
    (test_01_authenticate s resp).state = s := by
  rcases resp with e | r
  · rfl
  · by_cases h2 : r.status = 200
    · rcases h3 : r.token with _ | t
      · simp [test_01_authenticate, h2, h3]
      · exact absurd (by simp [test_01_authenticate, h2, h3]) h
    · simp [test_01_authenticate, h2]

/-- With no token, creation short-circuits into a skip and leaves the
state untouched, issuing no request. -/
lemma create_skip_of_token_none (s : RunState)
    (resp : Except String CreateResponse) (h : s.token = none) :
    test_02_create_booking s resp
      = ⟨.skipped "No authentication token available", s, []⟩ := by
  simp [test_02_create_booking, pyTruthyToken, h]

/-- With no booking id, retrieval short-circuits into a skip. -/
lemma get_skip_of_id_none (s : RunState)
    (resp : Except String GetResponse) (h : s.booking_id = none) :
    test_03_get_booking s resp
      = ⟨.skipped "No booking ID available (creation likely failed)", s, []⟩ := by
  simp [test_03_get_booking, pyTruthyId, h]

/-- With no booking id, update short-circuits into a skip. -/
lemma update_skip_of_id_none (s : RunState)
    (resp : Except String PutResponse) (h : s.booking_id = none) :
    test_04_update_booking s resp
      = ⟨.skipped "Missing booking ID or token", s, []⟩ := by
  simp [test_04_update_booking, pyTruthyId, h]

/-- With no booking id, deletion short-circuits into a skip. -/
lemma delete_skip_of_id_none (s : RunState)
    (dresp gresp : Except String StatusResponse) (h : s.booking_id = none) :
    test_05_delete_booking s dresp gresp
      = ⟨.skipped "Missing booking ID or token", s, []⟩ := by
  simp [test_05_delete_booking, pyTruthyId, h]

/-- A state as it stands after a successful authentication and creation:
a truthy token and a truthy booking id. -/
def readyState : RunState :=
  { token := some "tok", booking_id := some 1,
    booking_data := initialBookingData }

/-- A state holding set-but-falsy values: the empty-string token and the
zero booking id. -/
def falsyState : RunState :=
  { token := some "", booking_id := some 0,
    booking_data := initialBookingData }

/-- An environment in which the auth endpoint answers 403 with no token
and every other call would succeed. -/
def envAuthFail : Env :=
  { availResp := .ok ⟨200⟩
    authResp := .ok ⟨403, none⟩
    createResp := .ok ⟨200, some 1⟩
    getResp := .ok ⟨200, some "Ebrahim"⟩
    putResp := .ok ⟨200, some "UpdatedName"⟩
    deleteResp := .ok ⟨201⟩
    deleteGetResp := .ok ⟨404⟩ }

/-! Claim theorems. -/

/-- C1, counterexample: as stated the claim is false.  On a 200 response
whose `token` field is the empty string, `test_01_authenticate` passes
and stores the empty token — the code only asserts the token is not
`None`, it never checks non-emptiness. -/
theorem C1_counterexample :
    (test_01_authenticate setUpClass (.ok ⟨200, some ""⟩)).result
        = .passed ∧
    (test_01_authenticate setUpClass (.ok ⟨200, some ""⟩)).state.token
        = some "" := by
  exact ⟨rfl, rfl⟩

/-- C1, amended: the Authenticate step succeeds iff the status is 200 and
the response body contains a (possibly empty) non-null token field; on
success it stores that token into the state, and when it does not pass
the state is untouched. -/
theorem C1_authenticate_iff (s : RunState)
    (resp : Except String AuthResponse) :
    ((test_01_authenticate s resp).result = .passed ↔
      ∃ r, resp = .ok r ∧ r.status = 200 ∧ ∃ t, r.token = some t) ∧
    (∀ r t, resp = .ok r → r.status = 200 → r.token = some t →
      (test_01_authenticate s resp).state.token = some t) ∧
    ((test_01_authenticate s resp).result ≠ .passed →
      (test_01_authenticate s resp).state = s) := by
  refine ⟨?_, ?_, authenticate_state_of_not_passed s resp⟩
  · rcases resp with e | r
    · simp [test_01_authenticate]
    · by_cases h : r.status = 200
      · rcases h2 : r.token with _ | t <;>
          simp [test_01_authenticate, h, h2]
      · simp [test_01_authenticate, h]
  · rintro r t rfl h ht
    simp [test_01_authenticate, h, ht]

/-- C1, witness: on a concrete 200 response with token `"abc"` the step
stores `"abc"`. -/
theorem C1_witness :
    (test_01_authenticate setUpClass (.ok ⟨200, some "abc"⟩)).state.token
        = some "abc" :=
  (C1_authenticate_iff setUpClass (.ok ⟨200, some "abc"⟩)).2.1
    ⟨200, some "abc"⟩ "abc" rfl rfl rfl

/-- C2, counterexample: as stated the claim is false.  The code never
checks that the identifier is a positive integer: on a 200 response with
`bookingid` equal to `0` the step passes and stores `0`, which is not
positive. -/
theorem C2_counterexample :
    (test_02_create_booking readyState (.ok ⟨200, some 0⟩)).result
        = .passed ∧
    (test_02_create_booking readyState (.ok ⟨200, some 0⟩)).state.booking_id
        = some 0 ∧
    ¬ (0 : Int) > 0 := by
  refine ⟨rfl, rfl, by decide⟩

/-- C2, amended: with a truthy token, the CreateResource step succeeds
iff the status is 200 and the response carries a non-null identifier
(any integer, not necessarily positive); on success that identifier is
stored into the booking id, and when the step does not pass the state —
in particular the identifier — is untouched. -/
theorem C2_create_iff (s : RunState) (resp : Except String CreateResponse)
    (htok : pyTruthyToken s.token = true) :
    ((test_02_create_booking s resp).result = .passed ↔
      ∃ r, resp = .ok r ∧ r.status = 200 ∧ ∃ i, r.bookingid = some i) ∧
    (∀ r i, resp = .ok r → r.status = 200 → r.bookingid = some i →
      (test_02_create_booking s resp).state.booking_id = some i) ∧
    ((test_02_create_booking s resp).result ≠ .passed →
      (test_02_create_booking s resp).state = s) := by
  refine ⟨?_, ?_, ?_⟩
  · rcases resp with e | r
    · simp [test_02_create_booking, htok]
    · by_cases h : r.status = 200
      · rcases h2 : r.bookingid with _ | i <;>
          simp [test_02_create_booking, htok, h, h2]
      · simp [test_02_create_booking, htok, h]
  · rintro r i rfl h hi
    simp [test_02_create_booking, htok, h, hi]
  · rcases resp with e | r
    · simp [test_02_create_booking, htok]
    · by_cases h : r.status = 200
      · rcases h2 : r.bookingid with _ | i <;>
          simp [test_02_create_booking, htok, h, h2]
      · simp [test_02_create_booking, htok, h]

/-- C2, witness: from `readyState`, a 200 response with `bookingid = 7`
makes the step store `7`. -/
theorem C2_witness :
    (test_02_create_booking readyState (.ok ⟨200, some 7⟩)).state.booking_id
        = some 7 :=
  (C2_create_iff readyState (.ok ⟨200, some 7⟩) rfl).2.1
    ⟨200, some 7⟩ 7 rfl rfl rfl

/-- C8, counterexample: with the token unset the step does skip, but the
reason is the string `"No authentication token available"`, not the
claimed `"no authentication token"`. -/
theorem C8_counterexample :
    (test_02_create_booking setUpClass (.ok ⟨200, some 1⟩)).result
        = .skipped "No authentication token available" ∧
    (test_02_create_booking setUpClass (.ok ⟨200, some 1⟩)).result
        ≠ .skipped "no authentication token" := by
  refine ⟨rfl, by decide⟩

/-- C8, amended: when CreateResource runs with the token unset it results
in Skipped with exactly the reason `"No authentication token available"`. -/
theorem C8_create_skip (s : RunState) (resp : Except String CreateResponse)
    (h : s.token = none) :
    (test_02_create_booking s resp).result
        = .skipped "No authentication token available" := by
  rw [create_skip_of_token_none s resp h]

/-- C8, witness: the initial state has no token, so creation skips. -/
theorem C8_witness :
    (test_02_create_booking setUpClass (.ok ⟨200, some 1⟩)).result
        = .skipped "No authentication token available" :=
  C8_create_skip setUpClass (.ok ⟨200, some 1⟩) rfl

/-- C9: with a truthy booking id, RetrieveResource succeeds iff the
status is 200 and the body's `firstname` equals the fixture's
`firstname` under exact string equality, and the step never writes the
class state. -/
theorem C9_get_iff (s : RunState) (resp : Except String GetResponse)
    (hid : pyTruthyId s.booking_id = true) :
    ((test_03_get_booking s resp).result = .passed ↔
      ∃ r, resp = .ok r ∧ r.status = 200 ∧
        r.firstname = some s.booking_data.firstname) ∧
    (test_03_get_booking s resp).state = s := by
  refine ⟨?_, test_03_state s resp⟩
  rcases resp with e | r
  · simp [test_03_get_booking, hid]
  · by_cases h : r.status = 200
    · rcases h2 : r.firstname with _ | fn
      · simp [test_03_get_booking, hid, h, h2]
      · by_cases h3 : fn = s.booking_data.firstname <;>
          simp [test_03_get_booking, hid, h, h2, h3]
    · simp [test_03_get_booking, hid, h]

/-- C9, witness: from `readyState`, a 200 response carrying
`firstname = "Ebrahim"` makes the step pass. -/
theorem C9_witness :
    (test_03_get_booking readyState (.ok ⟨200, some "Ebrahim"⟩)).result
        = .passed :=
  (C9_get_iff readyState (.ok ⟨200, some "Ebrahim"⟩) rfl).1.mpr
    ⟨⟨200, some "Ebrahim"⟩, rfl, rfl, rfl⟩

/-- C3: with truthy booking id and token, DeleteResource passes iff the
delete call returns 201 and the follow-up GET returns 404; in
particular, when the GET after a 201 delete still returns 200 the step
fails with the deletion-verification message. -/
theorem C3_delete_iff (s : RunState)
    (dresp gresp : Except String StatusResponse)
    (hid : pyTruthyId s.booking_id = true)
    (htok : pyTruthyToken s.token = true) :
    ((test_05_delete_booking s dresp gresp).result = .passed ↔
      (∃ r, dresp = .ok r ∧ r.status = 201) ∧
      (∃ g, gresp = .ok g ∧ g.status = 404)) ∧
    (∀ r g, dresp = .ok r → r.status = 201 → gresp = .ok g →
      g.status = 200 →
      (test_05_delete_booking s dresp gresp).result
        = .failed "Failed to delete booking: Booking still exists after deletion") := by
  constructor
  · rcases dresp with e | r
    · simp [test_05_delete_booking, hid, htok]
    · by_cases h : r.status = 201
      · rcases gresp with e2 | g
        · simp [test_05_delete_booking, hid, htok, h]
        · by_cases h2 : g.status = 404 <;>
            simp [test_05_delete_booking, hid, htok, h, h2]
      · simp [test_05_delete_booking, hid, htok, h]
  · rintro r g rfl h rfl hg
    simp [test_05_delete_booking, hid, htok, h, hg]

/-- C3, witness: from `readyState`, a 201 delete followed by a 200 GET
makes the step fail with the lingering-resource message. -/
theorem C3_witness :
    (test_05_delete_booking readyState (.ok ⟨201⟩) (.ok ⟨200⟩)).result
        = .failed "Failed to delete booking: Booking still exists after deletion" :=
  (C3_delete_iff readyState (.ok ⟨201⟩) (.ok ⟨200⟩) rfl rfl).2
    ⟨201⟩ ⟨200⟩ rfl rfl rfl rfl

/-- C6, counterexample: as stated the claim is false.  On a successful
delete path, `test_05_delete_booking` issues two requests whose timeouts
are `some 5` (the delete) and `none` (the follow-up verification GET,
issued with no `timeout` argument) — so not every call carries the
5-unit timeout. -/
theorem C6_counterexample :
    (test_05_delete_booking readyState (.ok ⟨201⟩) (.ok ⟨404⟩)).requests.map
        HttpRequest.timeout = [some 5, none] ∧
    (test_05_delete_booking readyState (.ok ⟨201⟩) (.ok ⟨404⟩)).requests.map
        HttpRequest.timeout ≠ [some 5, some 5] := by
  refine ⟨rfl, by decide⟩

/-- C6, amended: every HTTP call issued by the first five steps carries
the fixed 5-unit timeout, and in DeleteResource the delete call carries
it as well, while the follow-up verification GET is issued without any
timeout. -/
theorem C6_timeouts :
    (∀ s resp req, req ∈ (test_00_verify_api_available s resp).requests →
      req.timeout = some 5) ∧
    (∀ s resp req, req ∈ (test_01_authenticate s resp).requests →
      req.timeout = some 5) ∧
    (∀ s resp req, req ∈ (test_02_create_booking s resp).requests →
      req.timeout = some 5) ∧
    (∀ s resp req, req ∈ (test_03_get_booking s resp).requests →
      req.timeout = some 5) ∧
    (∀ s resp req, req ∈ (test_04_update_booking s resp).requests →
      req.timeout = some 5) ∧
    (∀ s dresp gresp req,
      req ∈ (test_05_delete_booking s dresp gresp).requests →
      (req.method = .delete → req.timeout = some 5) ∧
      (req.method = .get → req.timeout = none)) := by
  refine ⟨?_, ?_, ?_, ?_, ?_, ?_⟩
  · intro s resp req hreq
    unfold test_00_verify_api_available at hreq
    rcases resp with e | r
    · simp at hreq; simp [hreq]
    · by_cases h : r.status = 200 <;> simp [h] at hreq <;> simp [hreq]
  · intro s resp req hreq
    unfold test_01_authenticate at hreq
    rcases resp with e | r
    · simp at hreq; simp [hreq]
    · by_cases h : r.status = 200
      · rcases h2 : r.token with _ | t <;> simp [h, h2] at hreq <;>
          simp [hreq]
      · simp [h] at hreq; simp [hreq]
  · intro s resp req hreq
    unfold test_02_create_booking at hreq
    by_cases h0 : !(pyTruthyToken s.token)
    · simp [h0] at hreq
    · rcases resp with e | r
      · simp [h0] at hreq; simp [hreq]
      · by_cases h : r.status = 200
        · rcases h2 : r.bookingid with _ | i <;> simp [h0, h, h2] at hreq <;>
            simp [hreq]
        · simp [h0, h] at hreq; simp [hreq]
  · intro s resp req hreq
    unfold test_03_get_booking at hreq
    by_cases h0 : !(pyTruthyId s.booking_id)
    · simp [h0] at hreq
    · rcases resp with e | r
      · simp [h0] at hreq; simp [hreq]
      · by_cases h : r.status = 200
        · rcases h2 : r.firstname with _ | fn
          · simp [h0, h, h2] at hreq; simp [hreq]
          · by_cases h3 : fn = s.booking_data.firstname <;>
              simp [h0, h, h2, h3] at hreq <;> simp [hreq]
        · simp [h0, h] at hreq; simp [hreq]
  · intro s resp req hreq
    unfold test_04_update_booking at hreq
    by_cases h0 : !(pyTruthyId s.booking_id) || !(pyTruthyToken s.token)
    · simp [h0] at hreq
    · rcases resp with e | r
      · simp [h0] at hreq; simp [hreq]
      · by_cases h : r.status = 200
        · rcases h2 : r.firstname with _ | fn
          · simp [h0, h, h2] at hreq; simp [hreq]
          · by_cases h3 : fn = "UpdatedName" <;>
              simp [h0, h, h2, h3] at hreq <;> simp [hreq]
        · simp [h0, h] at hreq; simp [hreq]
  · intro s dresp gresp req hreq
    unfold test_05_delete_booking at hreq
    by_cases h0 : !(pyTruthyId s.booking_id) || !(pyTruthyToken s.token)
    · simp [h0] at hreq
    · rcases dresp with e | r
      · simp [h0] at hreq; simp [hreq]
      · by_cases h : r.status = 201
        · rcases gresp with e2 | g
          · simp [h0, h] at hreq
            rcases hreq with hreq | hreq <;> simp [hreq]
          · by_cases h2 : g.status = 404 <;> simp [h0, h, h2] at hreq <;>
              rcases hreq with hreq | hreq <;> simp [hreq]
        · simp [h0, h] at hreq; simp [hreq]

/-- C6, witness: the availability probe's single request carries the
5-unit timeout. -/
theorem C6_witness :
    (HttpRequest.mk .get BASE_URL (some 5) none).timeout = some 5 :=
  C6_timeouts.1 setUpClass (.ok ⟨200⟩) ⟨.get, BASE_URL, some 5, none⟩
    (List.mem_singleton.mpr rfl)

/-- C7: whenever a step's network interaction raises a transport-level
exception (the `Except.error` case, carrying the exception description
`e`), the step converts it into a Failed result whose reason is the
step's fixed wrapping prefix followed by that description; the step
functions are total, so no exception ever escapes a step and the runner
reaches all six steps.  For DeleteResource this holds both for an error
in the delete call and for an error in the follow-up verification GET. -/
theorem C7_transport_failures (s : RunState) (e : String)
    (gresp : Except String StatusResponse) :
    ((test_00_verify_api_available s (.error e)).result
        = .failed ("API connection failed: " ++ e)) ∧
    ((test_01_authenticate s (.error e)).result
        = .failed ("Authentication failed: " ++ e)) ∧
    (pyTruthyToken s.token = true →
      (test_02_create_booking s (.error e)).result
        = .failed ("Booking creation failed: " ++ e)) ∧
    (pyTruthyId s.booking_id = true →
      (test_03_get_booking s (.error e)).result
        = .failed ("Failed to get booking: " ++ e)) ∧
    (pyTruthyId s.booking_id = true → pyTruthyToken s.token = true →
      (test_04_update_booking s (.error e)).result
        = .failed ("Failed to update booking: " ++ e)) ∧
    (pyTruthyId s.booking_id = true → pyTruthyToken s.token = true →
      (test_05_delete_booking s (.error e) gresp).result
        = .failed ("Failed to delete booking: " ++ e) ∧
      ∀ r : StatusResponse, r.status = 201 →
        (test_05_delete_booking s (.ok r) (.error e)).result
          = .failed ("Failed to delete booking: " ++ e)) := by
  refine ⟨rfl, rfl, ?_, ?_, ?_, ?_⟩
  · intro htok
    simp [test_02_create_booking, htok]
  · intro hid
    simp [test_03_get_booking, hid]
  · intro hid htok
    simp [test_04_update_booking, hid, htok]
  · intro hid htok
    refine ⟨by simp [test_05_delete_booking, hid, htok], ?_⟩
    intro r h
    simp [test_05_delete_booking, hid, htok, h]

/-- C7, witness: from `readyState`, a transport error with description
`"boom"` in the update call yields the wrapped failure reason. -/
theorem C7_witness :
    (test_04_update_booking readyState (.error "boom")).result
        = .failed ("Failed to update booking: " ++ "boom") :=
  (C7_transport_failures readyState "boom" (.ok ⟨404⟩)).2.2.2.2.1 rfl rfl

/-- C10: the preconditions test Python truthiness, not presence.  When
the booking id is the set-but-falsy integer `0`, RetrieveResource,
UpdateResource and DeleteResource skip with exactly the reasons used for
an unset id; when the token is the set-but-falsy empty string,
CreateResource, UpdateResource and DeleteResource skip with exactly the
reasons used for an unset token. -/
theorem C10_falsy_preconditions (s : RunState)
    (rc : Except String CreateResponse) (rg : Except String GetResponse)
    (rp : Except String PutResponse)
    (rd gr : Except String StatusResponse) :
    (s.booking_id = some 0 →
      (test_03_get_booking s rg).result
          = .skipped "No booking ID available (creation likely failed)" ∧
      (test_03_get_booking s rg).result
          = (test_03_get_booking { s with booking_id := none } rg).result ∧
      (test_04_update_booking s rp).result
          = .skipped "Missing booking ID or token" ∧
      (test_04_update_booking s rp).result
          = (test_04_update_booking { s with booking_id := none } rp).result ∧
      (test_05_delete_booking s rd gr).result
          = .skipped "Missing booking ID or token" ∧
      (test_05_delete_booking s rd gr).result
          = (test_05_delete_booking { s with booking_id := none } rd gr).result) ∧
    (s.token = some "" →
      (test_02_create_booking s rc).result
          = .skipped "No authentication token available" ∧
      (test_02_create_booking s rc).result
          = (test_02_create_booking { s with token := none } rc).result ∧
      (test_04_update_booking s rp).result
          = .skipped "Missing booking ID or token" ∧
      (test_04_update_booking s rp).result
          = (test_04_update_booking { s with token := none } rp).result ∧
      (test_05_delete_booking s rd gr).result
          = .skipped "Missing booking ID or token" ∧
      (test_05_delete_booking s rd gr).result
          = (test_05_delete_booking { s with token := none } rd gr).result) := by
  constructor
  · intro hid
    have h3 : (test_03_get_booking s rg).result
        = .skipped "No booking ID available (creation likely failed)" := by
      simp [test_03_get_booking, pyTruthyId, hid]
    have h4 : (test_04_update_booking s rp).result
        = .skipped "Missing booking ID or token" := by
      simp [test_04_update_booking, pyTruthyId, hid]
    have h5 : (test_05_delete_booking s rd gr).result
        = .skipped "Missing booking ID or token" := by
      simp [test_05_delete_booking, pyTruthyId, hid]
    refine ⟨h3, ?_, h4, ?_, h5, ?_⟩
    · rw [h3, get_skip_of_id_none _ rg rfl]
    · rw [h4, update_skip_of_id_none _ rp rfl]
    · rw [h5, delete_skip_of_id_none _ rd gr rfl]
  · intro htok
    have h2 : (test_02_create_booking s rc).result
        = .skipped "No authentication token available" := by
      simp [test_02_create_booking, pyTruthyToken, htok]
    have h4 : (test_04_update_booking s rp).result
        = .skipped "Missing booking ID or token" := by
      simp [test_04_update_booking, pyTruthyToken, htok]
    have h5 : (test_05_delete_booking s rd gr).result
        = .skipped "Missing booking ID or token" := by
      simp [test_05_delete_booking, pyTruthyToken, htok]
    refine ⟨h2, ?_, h4, ?_, h5, ?_⟩
    · rw [h2, create_skip_of_token_none _ rc rfl]
    · rw [h4]
      simp [test_04_update_booking, pyTruthyToken]
    · rw [h5]
      simp [test_05_delete_booking, pyTruthyToken]

/-- C10, witness: from a state holding token `""` and booking id `0`,
creation and retrieval both skip. -/
theorem C10_witness :
    (test_02_create_booking falsyState (.ok ⟨200, some 1⟩)).result
        = .skipped "No authentication token available" ∧
    (test_03_get_booking falsyState (.ok ⟨200, some "Ebrahim"⟩)).result
        = .skipped "No booking ID available (creation likely failed)" :=
  ⟨((C10_falsy_preconditions falsyState (.ok ⟨200, some 1⟩)
      (.ok ⟨200, some "Ebrahim"⟩) (.ok ⟨200, some "UpdatedName"⟩)
      (.ok ⟨201⟩) (.ok ⟨404⟩)).2 rfl).1,
   ((C10_falsy_preconditions falsyState (.ok ⟨200, some 1⟩)
      (.ok ⟨200, some "Ebrahim"⟩) (.ok ⟨200, some "UpdatedName"⟩)
      (.ok ⟨201⟩) (.ok ⟨404⟩)).1 rfl).1⟩

/-- C4: in a full suite run, if the Authenticate step fails (for any
reason — bad status, missing token, or transport error), then the token
is still unset at the end of the run, and CreateResource, UpdateResource
and DeleteResource all result in Skipped (with their documented skip
reasons) rather than Passed or Failed. -/
theorem C4_auth_failure_skips (env : Env) (e : String)
    (h : (runSuite env).r1 = .failed e) :
    (runSuite env).finalState.token = none ∧
    (runSuite env).r2 = .skipped "No authentication token available" ∧
    (runSuite env).r4 = .skipped "Missing booking ID or token" ∧
    (runSuite env).r5 = .skipped "Missing booking ID or token" := by
  simp only [runSuite, test_00_state] at h ⊢
  have hs : (test_01_authenticate setUpClass env.authResp).state
      = setUpClass :=
    authenticate_state_of_not_passed _ _ (by simp [h])
  rw [hs]
  rw [create_skip_of_token_none setUpClass env.createResp rfl]
  rw [get_skip_of_id_none setUpClass env.getResp rfl]
  rw [update_skip_of_id_none setUpClass env.putResp rfl]
  rw [delete_skip_of_id_none setUpClass env.deleteResp env.deleteGetResp rfl]
  exact ⟨rfl, rfl, rfl, rfl⟩

/-- C4, witness: in the environment where the auth endpoint answers 403
with no token, the run leaves the token unset and skips creation, update
and deletion. -/
theorem C4_witness :
    (runSuite envAuthFail).finalState.token = none ∧
    (runSuite envAuthFail).r2 = .skipped "No authentication token available" ∧
    (runSuite envAuthFail).r4 = .skipped "Missing booking ID or token" ∧
    (runSuite envAuthFail).r5 = .skipped "Missing booking ID or token" :=
  C4_auth_failure_skips envAuthFail
    "Authentication failed: Auth failed. Status: 403" (by rfl)

/-- C5: the booking fixture is immutable.  The derived payload of
UpdateResource is a copy of the fixture with `firstname` and `lastname`
replaced by the fixed sentinel strings (the nested dates record is
preserved), the PUT request carries exactly that derived copy, every
single step leaves the fixture in the class state unchanged, and a full
suite run, whatever the environment, ends with the fixture equal to its
initial value. -/
theorem C5_fixture_immutable :
    (∀ b, updated_data b
        = { b with firstname := "UpdatedName",
                   lastname := "UpdatedLastName" }) ∧
    (∀ b, (updated_data b).bookingdates = b.bookingdates) ∧
    (∀ s resp req, req ∈ (test_04_update_booking s resp).requests →
      req.body = some (updated_data s.booking_data)) ∧
    (∀ s resp,
      (test_00_verify_api_available s resp).state.booking_data
        = s.booking_data) ∧
    (∀ s resp,
      (test_01_authenticate s resp).state.booking_data = s.booking_data) ∧
    (∀ s resp,
      (test_02_create_booking s resp).state.booking_data
        = s.booking_data) ∧
    (∀ s resp,
      (test_03_get_booking s resp).state.booking_data = s.booking_data) ∧
    (∀ s resp,
      (test_04_update_booking s resp).state.booking_data
        = s.booking_data) ∧
    (∀ s dresp gresp,
      (test_05_delete_booking s dresp gresp).state.booking_data
        = s.booking_data) ∧
    (∀ env, (runSuite env).finalState.booking_data = initialBookingData) := by
  refine ⟨fun b => rfl, fun b => rfl, ?_, ?_, ?_, ?_, ?_, ?_, ?_, ?_⟩
  · intro s resp req hreq
    unfold test_04_update_booking at hreq
    by_cases h0 : !(pyTruthyId s.booking_id) || !(pyTruthyToken s.token)
    · simp [h0] at hreq
    · rcases resp with e | r
      · simp [h0] at hreq; simp [hreq]
      · by_cases h : r.status = 200
        · rcases h2 : r.firstname with _ | fn
          · simp [h0, h, h2] at hreq; simp [hreq]
          · by_cases h3 : fn = "UpdatedName" <;>
              simp [h0, h, h2, h3] at hreq <;> simp [hreq]
        · simp [h0, h] at hreq; simp [hreq]
  · intro s resp
    rw [test_00_state]
  · exact test_01_booking_data
  · exact test_02_booking_data
  · intro s resp
    rw [test_03_state]
  · intro s resp
    rw [test_04_state]
  · intro s dresp gresp
    rw [test_05_state]
  · intro env
    simp only [runSuite, test_05_state, test_04_state, test_03_state,
      test_02_booking_data, test_01_booking_data, test_00_state]
    rfl

/-- C5, witness: from `readyState`, the PUT request issued by a
successful update carries the sentinel-renamed copy of the fixture. -/
theorem C5_witness :
    (HttpRequest.mk .put (BASE_URL ++ "/booking/" ++ idString (some 1))
        (some 5) (some (updated_data initialBookingData))).body
      = some (updated_data readyState.booking_data) :=
  C5_fixture_immutable.2.2.1 readyState (.ok ⟨200, some "UpdatedName"⟩)
    ⟨.put, BASE_URL ++ "/booking/" ++ idString (some 1), some 5,
      some (updated_data initialBookingData)⟩
    (List.mem_singleton.mpr rfl)

end RestAPI
